import Mathlib

/-!
Verification of the RTT/RTO estimation engine of `src/src/internet/model/rtt-estimator.h`
(ns-3 style `RttEstimator` / `RttMeanDeviation`).

Shallow embedding conventions:
* `Time` and the C++ `double` fields are modelled as `ℚ`;
* `SequenceNumber32` and byte counts are modelled as `Nat` (the claims under study
  never exercise 32-bit sequence wrap-around);
* the ledger `RttHistory_t` (a `std::deque<RttHistory>`) is a `List RttHistory`,
  oldest record first;
* the single concrete smoothing algorithm (`RttMeanDeviation`) is flattened into
  one structure together with the `RttEstimator` base-class state.

The repository ships only the header: every method except `Init` is declared but
its body (`rtt-estimator.cc`) is absent from the sources.  Those operations are
therefore modelled from the specification text, as marked in each doc comment.
`Init` is defined inline in the header and is embedded from that source line.
-/

namespace Ns3Rtt

/-- Embedding of `RttHistory` (rtt-estimator.h, lines 40-61): one record of the
sent-segment ledger, holding the first sequence number, the byte count, the send
time, the DCTCP marking counters and the retransmission flag. -/
structure RttHistory where
  seq : Nat
  count : Nat
  time : ℚ
  nonMarked : Nat
  marked : Nat
  retx : Bool
deriving DecidableEq

/-- Embedding of the `RttEstimator` base-class state (rtt-estimator.h, lines
184-203) flattened together with the `RttMeanDeviation` fields `m_gain` and
`m_variance` (lines 260-261), since the mean-deviation estimator is the only
concrete smoothing algorithm of the repository. -/
structure RttEstimator where
  m_next : Nat
  m_history : List RttHistory
  m_maxMultiplier : Nat
  m_initialEstimatedRtt : ℚ
  m_currentEstimatedRtt : ℚ
  m_minRto : ℚ
  m_nSamples : Nat
  m_multiplier : Nat
  m_g : ℚ
  m_marked : Nat
  m_nonMarked : Nat
  m_alpha : ℚ
  m_delta_marked : ℚ
  m_delta_unmarked : ℚ
  m_fracMarkPkt : ℚ
  m_gain : ℚ
  m_variance : ℚ
deriving DecidableEq

/-- Modelled from the spec: the ledger test "covered range is fully acknowledged
by `ackSeq`", i.e. `ackSeq ≥ seq.start + count` (spec §4.1, `matchAndConsume`).
The body of `RttEstimator::AckSeq` is not in the sources. -/
def fullyAcked (h : RttHistory) (ackSeq : Nat) : Bool :=
  decide (h.seq + h.count ≤ ackSeq)

/-- Modelled from the spec: the matching half of `matchAndConsume` (spec §4.1) —
scan the ledger from the oldest record forward and return `now − sendTime` for
the first record that is fully acknowledged and not retransmitted (Karn's rule:
records with `retransmitted = true` are not usable for timing); `none` when no
record qualifies. -/
def matchSample (hist : List RttHistory) (ackSeq : Nat) (now : ℚ) : Option ℚ :=
  (hist.find? (fun h => !h.retx && fullyAcked h ackSeq)).map (fun h => now - h.time)

/-- Modelled from the spec: the consuming half of `matchAndConsume` (spec §4.1) —
acks are cumulative, so every leading record whose range is fully acknowledged
is retired from the ledger. -/
def consumeAcked (hist : List RttHistory) (ackSeq : Nat) : List RttHistory :=
  hist.dropWhile (fun h => fullyAcked h ackSeq)

/-- Modelled from the spec: `RttEstimator::SentSeq` (declared rtt-estimator.h
line 95, body absent).  Per spec §4.1/§4.2 `record(seq, byteCount)`: if
`seq == nextExpectedSeq` a fresh record (`retransmitted = false`) is appended
and `nextExpectedSeq` advances; otherwise the call is a retransmission notice —
the stale entry covering `seq` (if still present) is marked `retx := true` and
`nextExpectedSeq = max(nextExpectedSeq, seq + size)` never rewinds.  The spec
does not fix the initial marking counters of a fresh record; they start at 0. -/
def SentSeq (e : RttEstimator) (seq size : Nat) (now : ℚ) : RttEstimator :=
  if seq = e.m_next then
    { e with
      m_history := e.m_history ++ [⟨seq, size, now, 0, 0, false⟩],
      m_next := seq + size }
  else
    { e with
      m_history := e.m_history.map (fun h =>
        if h.seq ≤ seq ∧ seq < h.seq + h.count then { h with retx := true } else h),
      m_next := max e.m_next (seq + size) }

/-- Modelled from the spec: `RttMeanDeviation::Measurement` (declared
rtt-estimator.h line 238, body absent).  Per spec §4.3: the first sample seeds
`currentEstimate = sample` and `variance = sample / 2`; later samples apply the
Jacobson/Karels mean-deviation filter with gain `m_gain`; `sampleCount`
increments on every sample. -/
def Measurement (e : RttEstimator) (m : ℚ) : RttEstimator :=
  if e.m_nSamples = 0 then
    { e with
      m_currentEstimatedRtt := m,
      m_variance := m / 2,
      m_nSamples := e.m_nSamples + 1 }
  else
    { e with
      m_currentEstimatedRtt := e.m_currentEstimatedRtt + e.m_gain * (m - e.m_currentEstimatedRtt),
      m_variance := e.m_variance + e.m_gain * (|m - e.m_currentEstimatedRtt| - e.m_variance),
      m_nSamples := e.m_nSamples + 1 }

/-- Modelled from the spec: `RttEstimator::ResetMultiplier` (declared
rtt-estimator.h line 135, body absent): sets the backoff multiplier to 1. -/
def ResetMultiplier (e : RttEstimator) : RttEstimator :=
  { e with m_multiplier := 1 }

/-- Modelled from the spec: `RttEstimator::IncreaseMultiplier` (declared
rtt-estimator.h line 130, body absent): doubles the backoff multiplier, capped
at `m_maxMultiplier`. -/
def IncreaseMultiplier (e : RttEstimator) : RttEstimator :=
  { e with m_multiplier := min (2 * e.m_multiplier) e.m_maxMultiplier }

/-- Clamp a rational to the unit interval; the spec (§4.4) clamps the smoothed
marking fraction `alpha` to `[0,1]`. -/
def clamp01 (x : ℚ) : ℚ := max 0 (min 1 x)

/-- Modelled from the spec: the marking-fraction (DCTCP-style) part of
`RttEstimator::AckSeq` (spec §4.2/§4.4, body absent).  Every ack updates the
cumulative counters (`marked++` or `unmarked++`) and the interval deltas; if the
interval denominator is positive, `alpha` is smoothed towards
`fracMarked = markedDelta / (markedDelta + unmarkedDelta)` with weight `m_g`,
clamped to `[0,1]`, and the deltas reset to zero; otherwise no alpha update. -/
def markingUpdate (e : RttEstimator) (markedFlag : Bool) : RttEstimator :=
  let dm : ℚ := e.m_delta_marked + (if markedFlag then 1 else 0)
  let du : ℚ := e.m_delta_unmarked + (if markedFlag then 0 else 1)
  let e1 := { e with
    m_marked := e.m_marked + (if markedFlag then 1 else 0),
    m_nonMarked := e.m_nonMarked + (if markedFlag then 0 else 1) }
  if 0 < dm + du then
    { e1 with
      m_fracMarkPkt := dm / (dm + du),
      m_alpha := clamp01 ((1 - e.m_g) * e.m_alpha + e.m_g * (dm / (dm + du))),
      m_delta_marked := 0,
      m_delta_unmarked := 0 }
  else
    { e1 with
      m_delta_marked := dm,
      m_delta_unmarked := du }

/-- Modelled from the spec: `RttEstimator::AckSeq` (declared rtt-estimator.h
lines 97-102, body absent).  Per spec §4.2 `onAckReceived(ackSeq, markedFlag)`:
run `matchAndConsume`; if a sample is produced feed it to `Measurement` and call
`ResetMultiplier`; always update the marking-fraction state; return the sample
(or none). -/
def AckSeq (e : RttEstimator) (ackSeq : Nat) (markedFlag : Bool) (now : ℚ) :
    Option ℚ × RttEstimator :=
  let sample := matchSample e.m_history ackSeq now
  let e1 := { e with m_history := consumeAcked e.m_history ackSeq }
  let e2 := match sample with
    | some m => ResetMultiplier (Measurement e1 m)
    | none => e1
  (sample, markingUpdate e2 markedFlag)

/-- Modelled from the spec: `RttEstimator::ClearSent` (declared rtt-estimator.h
line 107, body absent): drops all ledger records. -/
def ClearSent (e : RttEstimator) : RttEstimator :=
  { e with m_history := [] }

/-- Modelled from the spec: `RttMeanDeviation::RetransmitTimeout` (declared
rtt-estimator.h line 244, body absent).  Per spec §4.3:
`max(minRto, currentEstimate + 4 × variance) × multiplier`. -/
def RetransmitTimeout (e : RttEstimator) : ℚ :=
  max e.m_minRto (e.m_currentEstimatedRtt + 4 * e.m_variance) * (e.m_multiplier : ℚ)

/-- Modelled from the spec: `RttMeanDeviation::Reset` (declared rtt-estimator.h
line 251, body absent).  Per spec §4.3/§8: the estimate returns to the
configured initial RTT, variance to zero, the ledger empties and the sample
count returns to 0; the configuration (`minRto`, `maxMultiplier`, gains) is not
touched. -/
def Reset (e : RttEstimator) : RttEstimator :=
  { e with
    m_currentEstimatedRtt := e.m_initialEstimatedRtt,
    m_variance := 0,
    m_history := [],
    m_nSamples := 0 }

/-- Modelled from the spec: `RttMeanDeviation::Copy` (declared rtt-estimator.h
line 246, body absent).  Per spec §4.2 `copy()`: an independent estimator with
identical numeric state and configuration and a fresh, empty ledger.  In this
pure embedding the result is a value, so independence from the original is
inherent. -/
def Copy (e : RttEstimator) : RttEstimator :=
  { e with m_history := [] }

/-- Embedded from the source (rtt-estimator.h line 183):
`void Init(SequenceNumber32 s) {m_next = s;}` — an unconditional assignment to
`m_next`, with no `max`/never-rewind guard and no other effect. -/
def Init (e : RttEstimator) (s : Nat) : RttEstimator :=
  { e with m_next := s }

/-- A concrete freshly-constructed estimator used by the closed scenarios:
no history, multiplier 1, no samples, and representative configuration values
(initial estimate 1 s, minimum RTO 0.2 s, backoff ceiling 64, mean-deviation
gain 1/8, DCTCP weight 1/16). -/
def initEstimator : RttEstimator :=
  { m_next := 0
    m_history := []
    m_maxMultiplier := 64
    m_initialEstimatedRtt := 1
    m_currentEstimatedRtt := 1
    m_minRto := 1/5
    m_nSamples := 0
    m_multiplier := 1
    m_g := 1/16
    m_marked := 0
    m_nonMarked := 0
    m_alpha := 0
    m_delta_marked := 0
    m_delta_unmarked := 0
    m_fracMarkPkt := 0
    m_gain := 1/8
    m_variance := 0 }

/-- The C1 scenario state: send seq 0 / len 10 at t = 0, then retransmit
seq 0 / len 10 at t = 1. -/
def karnScenario : RttEstimator :=
  SentSeq (SentSeq initEstimator 0 10 0) 0 10 1

/-- A state with one unretransmitted in-flight segment (seq 0 / len 10 sent at
t = 0), used by the witnesses that need an ack producing a sample. -/
def oneSent : RttEstimator :=
  SentSeq initEstimator 0 10 0

/-- The C4 scenario state: three segments seq 0, 10, 20, each of length 10,
sent at times 0, 1/2 and 1, none retransmitted. -/
def threeSent : RttEstimator :=
  SentSeq (SentSeq (SentSeq initEstimator 0 10 0) 10 10 (1/2)) 20 10 1

/-- A state whose estimate and variance are both zero, exercising the RTO
floor. -/
def zeroEstimator : RttEstimator :=
  { initEstimator with m_currentEstimatedRtt := 0, m_variance := 0 }

/-! ### Helper lemmas: frame facts about the individual operations -/

theorem Measurement_history (e : RttEstimator) (m : ℚ) :
    (Measurement e m).m_history = e.m_history := by
  unfold Measurement; split <;> rfl

theorem Measurement_alpha (e : RttEstimator) (m : ℚ) :
    (Measurement e m).m_alpha = e.m_alpha := by
  unfold Measurement; split <;> rfl

theorem Measurement_g (e : RttEstimator) (m : ℚ) :
    (Measurement e m).m_g = e.m_g := by
  unfold Measurement; split <;> rfl

theorem Measurement_delta_marked (e : RttEstimator) (m : ℚ) :
    (Measurement e m).m_delta_marked = e.m_delta_marked := by
  unfold Measurement; split <;> rfl

theorem Measurement_delta_unmarked (e : RttEstimator) (m : ℚ) :
    (Measurement e m).m_delta_unmarked = e.m_delta_unmarked := by
  unfold Measurement; split <;> rfl

theorem markingUpdate_history (e : RttEstimator) (f : Bool) :
    (markingUpdate e f).m_history = e.m_history := by
  unfold markingUpdate; split <;> dsimp only <;> split <;> rfl

theorem markingUpdate_multiplier (e : RttEstimator) (f : Bool) :
    (markingUpdate e f).m_multiplier = e.m_multiplier := by
  unfold markingUpdate; split <;> dsimp only <;> split <;> rfl

/-- The ledger contents of the three concrete scenario states, computed by
unfolding `SentSeq`. -/
theorem oneSent_history :
    oneSent.m_history = [⟨0, 10, 0, 0, 0, false⟩] := rfl

theorem karnScenario_history :
    karnScenario.m_history = [⟨0, 10, 0, 0, 0, true⟩] := rfl

theorem threeSent_history :
    threeSent.m_history =
      [⟨0, 10, 0, 0, 0, false⟩, ⟨10, 10, 1/2, 0, 0, false⟩, ⟨20, 10, 1, 0, 0, false⟩] := rfl

theorem clamp01_nonneg (x : ℚ) : 0 ≤ clamp01 x := le_max_left 0 _

theorem clamp01_le_one (x : ℚ) : clamp01 x ≤ 1 := max_le (by norm_num) (min_le_left 1 x)

theorem clamp01_eq_self (x : ℚ) (h0 : 0 ≤ x) (h1 : x ≤ 1) : clamp01 x = x := by
  rw [clamp01, min_eq_right h1, max_eq_right h0]

/-- The full behaviour of the marking-fraction step on states satisfying the
spec invariants (`0 < g < 1`, `alpha ∈ [0,1]`, nonnegative interval deltas):
the updated alpha is the exponentially-weighted combination of the previous
alpha and the interval marking fraction, the deltas reset to zero, and alpha
stays within `[0,1]`. -/
theorem markingUpdate_alpha_spec (e : RttEstimator) (f : Bool)
    (hg0 : 0 < e.m_g) (hg1 : e.m_g < 1)
    (ha0 : 0 ≤ e.m_alpha) (ha1 : e.m_alpha ≤ 1)
    (hdm : 0 ≤ e.m_delta_marked) (hdu : 0 ≤ e.m_delta_unmarked) :
    (markingUpdate e f).m_alpha
        = (1 - e.m_g) * e.m_alpha
          + e.m_g * ((e.m_delta_marked + (if f then (1:ℚ) else 0))
              / ((e.m_delta_marked + (if f then (1:ℚ) else 0))
                  + (e.m_delta_unmarked + (if f then (0:ℚ) else 1)))) ∧
      (markingUpdate e f).m_delta_marked = 0 ∧
      (markingUpdate e f).m_delta_unmarked = 0 ∧
      0 ≤ (markingUpdate e f).m_alpha ∧ (markingUpdate e f).m_alpha ≤ 1 := by
  have hdmnn : (0:ℚ) ≤ e.m_delta_marked + (if f then (1:ℚ) else 0) := by
    cases f <;> simp <;> linarith
  have hDpos : (0:ℚ) < (e.m_delta_marked + (if f then (1:ℚ) else 0))
      + (e.m_delta_unmarked + (if f then (0:ℚ) else 1)) := by
    cases f <;> simp <;> linarith
  have hfracle : e.m_delta_marked + (if f then (1:ℚ) else 0)
      ≤ (e.m_delta_marked + (if f then (1:ℚ) else 0))
        + (e.m_delta_unmarked + (if f then (0:ℚ) else 1)) := by
    cases f <;> simp <;> linarith
  have hfrac0 : (0:ℚ) ≤ (e.m_delta_marked + (if f then (1:ℚ) else 0))
      / ((e.m_delta_marked + (if f then (1:ℚ) else 0))
          + (e.m_delta_unmarked + (if f then (0:ℚ) else 1))) :=
    div_nonneg hdmnn (le_of_lt hDpos)
  have hfrac1 : (e.m_delta_marked + (if f then (1:ℚ) else 0))
      / ((e.m_delta_marked + (if f then (1:ℚ) else 0))
          + (e.m_delta_unmarked + (if f then (0:ℚ) else 1))) ≤ 1 :=
    (div_le_one hDpos).mpr hfracle
  have hx0 : (0:ℚ) ≤ (1 - e.m_g) * e.m_alpha
      + e.m_g * ((e.m_delta_marked + (if f then (1:ℚ) else 0))
          / ((e.m_delta_marked + (if f then (1:ℚ) else 0))
              + (e.m_delta_unmarked + (if f then (0:ℚ) else 1)))) :=
    add_nonneg (mul_nonneg (by linarith) ha0) (mul_nonneg (le_of_lt hg0) hfrac0)
  have hx1 : (1 - e.m_g) * e.m_alpha
      + e.m_g * ((e.m_delta_marked + (if f then (1:ℚ) else 0))
          / ((e.m_delta_marked + (if f then (1:ℚ) else 0))
              + (e.m_delta_unmarked + (if f then (0:ℚ) else 1)))) ≤ 1 := by
    have h1 : (1 - e.m_g) * e.m_alpha ≤ 1 - e.m_g :=
      mul_le_of_le_one_right (by linarith) ha1
    have h2 : e.m_g * ((e.m_delta_marked + (if f then (1:ℚ) else 0))
        / ((e.m_delta_marked + (if f then (1:ℚ) else 0))
            + (e.m_delta_unmarked + (if f then (0:ℚ) else 1)))) ≤ e.m_g :=
      mul_le_of_le_one_right (le_of_lt hg0) hfrac1
    linarith
  unfold markingUpdate
  dsimp only
  rw [if_pos hDpos]
  dsimp only
  exact ⟨clamp01_eq_self _ hx0 hx1, rfl, rfl, clamp01_nonneg _, clamp01_le_one _⟩

/-- The post-state of `AckSeq` is always a `markingUpdate` of an intermediate
state whose marking-fraction fields agree with the pre-state's. -/
theorem ackSeq_sndCases (e : RttEstimator) (a : Nat) (f : Bool) (t : ℚ) :
    ∃ e2 : RttEstimator, (AckSeq e a f t).2 = markingUpdate e2 f ∧
      e2.m_alpha = e.m_alpha ∧ e2.m_g = e.m_g ∧
      e2.m_delta_marked = e.m_delta_marked ∧ e2.m_delta_unmarked = e.m_delta_unmarked := by
  cases hms : matchSample e.m_history a t with
  | none =>
    refine ⟨{ e with m_history := consumeAcked e.m_history a }, ?_, rfl, rfl, rfl, rfl⟩
    simp [AckSeq, hms]
  | some m =>
    refine ⟨ResetMultiplier (Measurement { e with m_history := consumeAcked e.m_history a } m),
      ?_, ?_, ?_, ?_, ?_⟩
    · simp [AckSeq, hms]
    · simp [ResetMultiplier, Measurement_alpha]
    · simp [ResetMultiplier, Measurement_g]
    · simp [ResetMultiplier, Measurement_delta_marked]
    · simp [ResetMultiplier, Measurement_delta_unmarked]

/-- The backoff multiplier after `n` iterated `IncreaseMultiplier` calls, for
any start value not exceeding the ceiling. -/
theorem increase_iterate (n : Nat) :
    ∀ e : RttEstimator, e.m_multiplier ≤ e.m_maxMultiplier →
      ((IncreaseMultiplier^[n]) e).m_multiplier
          = min (2 ^ n * e.m_multiplier) e.m_maxMultiplier ∧
        ((IncreaseMultiplier^[n]) e).m_maxMultiplier = e.m_maxMultiplier := by
  induction n with
  | zero =>
    intro e he
    simp [min_eq_left he]
  | succ n ih =>
    intro e he
    rw [Function.iterate_succ_apply]
    have hle : (IncreaseMultiplier e).m_multiplier ≤ (IncreaseMultiplier e).m_maxMultiplier := by
      simp [IncreaseMultiplier]
    obtain ⟨hm, hM⟩ := ih (IncreaseMultiplier e) hle
    refine ⟨?_, by rw [hM]; rfl⟩
    rw [hm]
    have h1 : (IncreaseMultiplier e).m_multiplier = min (2 * e.m_multiplier) e.m_maxMultiplier := rfl
    have h2 : (IncreaseMultiplier e).m_maxMultiplier = e.m_maxMultiplier := rfl
    rw [h1, h2]
    rcases le_total (2 * e.m_multiplier) e.m_maxMultiplier with h | h
    · rw [min_eq_left h]
      have hx : 2 ^ n * (2 * e.m_multiplier) = 2 ^ (n + 1) * e.m_multiplier := by ring
      rw [hx]
    · rw [min_eq_right h]
      have hp : 0 < 2 ^ n := Nat.pos_pow_of_pos n (by norm_num)
      have hA : e.m_maxMultiplier ≤ 2 ^ n * e.m_maxMultiplier :=
        Nat.le_mul_of_pos_left _ hp
      have h21 : 2 ≤ 2 ^ (n + 1) := by
        calc 2 = 2 ^ 1 := (pow_one 2).symm
          _ ≤ 2 ^ (n + 1) := Nat.pow_le_pow_right (by norm_num) (by omega)
      have hB : e.m_maxMultiplier ≤ 2 ^ (n + 1) * e.m_multiplier := by
        calc e.m_maxMultiplier ≤ 2 * e.m_multiplier := h
          _ ≤ 2 ^ (n + 1) * e.m_multiplier := Nat.mul_le_mul_right _ h21
      rw [min_eq_right hA, min_eq_right hB]

/-! ### Claim theorems -/

/-- Claim C1 (Karn's rule): every RTT sample returned by `AckSeq` is measured
from a ledger record whose `retx` flag is false (never from a retransmitted
record), and in the concrete scenario "send seq 0 / len 10 at t = 0, retransmit
seq 0 / len 10 at t = 1, ack seq 10 at t = 1.2" `AckSeq` returns no sample. -/
theorem ackSeq_karnRule :
    (∀ (e : RttEstimator) (a : Nat) (f : Bool) (t m : ℚ),
        (AckSeq e a f t).1 = some m →
        ∃ rec ∈ e.m_history, rec.retx = false ∧ rec.seq + rec.count ≤ a ∧ m = t - rec.time) ∧
    (AckSeq karnScenario 10 false (6/5)).1 = none := by
  constructor
  · intro e a f t m hm
    have hs : matchSample e.m_history a t = some m := hm
    unfold matchSample at hs
    cases hfind : e.m_history.find? (fun h => !h.retx && fullyAcked h a) with
    | none => rw [hfind] at hs; simp at hs
    | some r =>
      rw [hfind] at hs
      simp at hs
      have hmem := List.mem_of_find?_eq_some hfind
      have hp := List.find?_some hfind
      simp only [Bool.and_eq_true, Bool.not_eq_true, fullyAcked, decide_eq_true_eq] at hp
      refine ⟨r, hmem, ?_, hp.2, hs.symm⟩
      cases hr : r.retx
      · rfl
      · rw [hr] at hp; simp at hp
  · decide

/-- Witness for C1: the ack of an unretransmitted segment (seq 0 / len 10 sent
at t = 0, acked with seq 10 at t = 1) produces the sample 1, which indeed comes
from a non-retransmitted ledger record. -/
theorem ackSeq_karnRule_witness :
    ∃ rec ∈ oneSent.m_history,
      rec.retx = false ∧ rec.seq + rec.count ≤ 10 ∧ (1:ℚ) = 1 - rec.time :=
  ackSeq_karnRule.1 oneSent 10 false 1 1
    (by simp [AckSeq, matchSample, fullyAcked, oneSent_history])

/-- Claim C2 (seeding): on a fresh estimator (`m_nSamples = 0`), the first
`Measurement sample` sets the current estimate to `sample` and the variance to
`sample / 2` exactly. -/
theorem measurement_seeds (e : RttEstimator) (m : ℚ) (h : e.m_nSamples = 0) :
    (Measurement e m).m_currentEstimatedRtt = m ∧ (Measurement e m).m_variance = m / 2 := by
  unfold Measurement
  rw [if_pos h]
  exact ⟨rfl, rfl⟩

/-- Witness for C2: the fresh `initEstimator` seeded with a sample of 3 ends up
with estimate 3 and variance 3/2. -/
theorem measurement_seeds_witness :
    initEstimator.m_nSamples = 0 ∧
      (Measurement initEstimator 3).m_currentEstimatedRtt = 3 ∧
      (Measurement initEstimator 3).m_variance = 3 / 2 :=
  ⟨rfl, measurement_seeds initEstimator 3 rfl⟩

/-- Claim C3 (RTO formula and floor): `RetransmitTimeout` returns
`max(minRto, currentEstimate + 4 × variance) × multiplier`, and under the
invariants `multiplier ≥ 1` and `minRto ≥ 0` the result is never below
`minRto` — in particular when estimate and variance are both zero. -/
theorem retransmitTimeout_spec (e : RttEstimator)
    (h1 : 1 ≤ e.m_multiplier) (h2 : 0 ≤ e.m_minRto) :
    RetransmitTimeout e
        = max e.m_minRto (e.m_currentEstimatedRtt + 4 * e.m_variance) * (e.m_multiplier : ℚ) ∧
      e.m_minRto ≤ RetransmitTimeout e := by
  refine ⟨rfl, ?_⟩
  have hmax : e.m_minRto ≤ max e.m_minRto (e.m_currentEstimatedRtt + 4 * e.m_variance) :=
    le_max_left _ _
  have hmult : (1 : ℚ) ≤ (e.m_multiplier : ℚ) := by exact_mod_cast h1
  calc e.m_minRto = e.m_minRto * 1 := (mul_one _).symm
    _ ≤ max e.m_minRto (e.m_currentEstimatedRtt + 4 * e.m_variance) * (e.m_multiplier : ℚ) :=
        mul_le_mul hmax hmult zero_le_one (le_trans h2 hmax)

/-- Witness for C3: on a state with estimate 0 and variance 0 the RTO formula
holds and the result still respects the `minRto` floor. -/
theorem retransmitTimeout_spec_witness :
    1 ≤ zeroEstimator.m_multiplier ∧ 0 ≤ zeroEstimator.m_minRto ∧
      (RetransmitTimeout zeroEstimator
          = max zeroEstimator.m_minRto
              (zeroEstimator.m_currentEstimatedRtt + 4 * zeroEstimator.m_variance)
              * (zeroEstimator.m_multiplier : ℚ) ∧
        zeroEstimator.m_minRto ≤ RetransmitTimeout zeroEstimator) :=
  ⟨le_refl 1, by norm_num [zeroEstimator, initEstimator],
    retransmitTimeout_spec zeroEstimator (le_refl 1) (by norm_num [zeroEstimator, initEstimator])⟩

/-- Claim C4 (cumulative ack consumption): after sending three segments
(seq 0, 10, 20, each of length 10, at times 0, 1/2 and 1, none retransmitted),
acking seq 30 at t = 2 retires all three ledger records and yields exactly one
RTT sample — `2 = 2 − 0`, measured from the oldest eligible record. -/
theorem ackSeq_cumulativeConsume :
    (AckSeq threeSent 30 false 2).1 = some 2 ∧
      ((AckSeq threeSent 30 false 2).2).m_history = [] := by
  have hs : matchSample threeSent.m_history 30 2 = some 2 := by
    simp [matchSample, fullyAcked, threeSent_history]
  constructor
  · exact hs
  · simp only [AckSeq]
    rw [hs]
    simp [markingUpdate_history, ResetMultiplier, Measurement_history,
      consumeAcked, fullyAcked, threeSent_history]

/-- Claim C5 (monotone backoff): starting from `multiplier = 1` (with the
configured ceiling at least 1), `n` consecutive `IncreaseMultiplier` calls
leave the multiplier at `min(2^n, maxMultiplier)`. -/
theorem increaseMultiplier_backoff (e : RttEstimator) (n : Nat)
    (h1 : e.m_multiplier = 1) (h2 : 1 ≤ e.m_maxMultiplier) :
    ((IncreaseMultiplier^[n]) e).m_multiplier = min (2 ^ n) e.m_maxMultiplier := by
  have h := (increase_iterate n e (by rw [h1]; exact h2)).1
  rw [h, h1, mul_one]

/-- Witness for C5: three backoffs on the fresh estimator (ceiling 64) give
multiplier `min(2^3, 64)`. -/
theorem increaseMultiplier_backoff_witness :
    initEstimator.m_multiplier = 1 ∧ 1 ≤ initEstimator.m_maxMultiplier ∧
      ((IncreaseMultiplier^[3]) initEstimator).m_multiplier
        = min (2 ^ 3) initEstimator.m_maxMultiplier :=
  ⟨rfl, by decide, increaseMultiplier_backoff initEstimator 3 rfl (by decide)⟩

/-- Claim C6 (backoff reset): every `AckSeq` call that yields an RTT sample
leaves the backoff multiplier equal to 1. -/
theorem ackSeq_resetsMultiplier (e : RttEstimator) (a : Nat) (f : Bool) (t m : ℚ)
    (hm : (AckSeq e a f t).1 = some m) :
    ((AckSeq e a f t).2).m_multiplier = 1 := by
  have hs : matchSample e.m_history a t = some m := hm
  simp [AckSeq, hs, markingUpdate_multiplier, ResetMultiplier]

/-- Witness for C6: acking the single in-flight segment of `oneSent` yields a
sample and leaves the multiplier at 1. -/
theorem ackSeq_resetsMultiplier_witness :
    ((AckSeq oneSent 10 false 1).2).m_multiplier = 1 :=
  ackSeq_resetsMultiplier oneSent 10 false 1 1
    (by simp [AckSeq, matchSample, fullyAcked, oneSent_history])

/-- Claim C7 (marking-fraction update and bounds): on each `AckSeq` call, with
the interval deltas taken after the per-ack `marked++`/`unmarked++` increment,
if their sum is positive then alpha becomes
`(1 − g) × alpha + g × (markedDelta / (markedDelta + unmarkedDelta))` and the
deltas reset to zero, otherwise alpha is unchanged; and under the invariants
`0 < g < 1`, `alpha ∈ [0,1]`, nonnegative deltas, the updated alpha stays in
`[0,1]`. -/
theorem ackSeq_alphaUpdate (e : RttEstimator) (a : Nat) (f : Bool) (t : ℚ)
    (hg0 : 0 < e.m_g) (hg1 : e.m_g < 1)
    (ha0 : 0 ≤ e.m_alpha) (ha1 : e.m_alpha ≤ 1)
    (hdm : 0 ≤ e.m_delta_marked) (hdu : 0 ≤ e.m_delta_unmarked) :
    ((0:ℚ) < (e.m_delta_marked + (if f then (1:ℚ) else 0))
        + (e.m_delta_unmarked + (if f then (0:ℚ) else 1)) →
      ((AckSeq e a f t).2).m_alpha
          = (1 - e.m_g) * e.m_alpha
            + e.m_g * ((e.m_delta_marked + (if f then (1:ℚ) else 0))
                / ((e.m_delta_marked + (if f then (1:ℚ) else 0))
                    + (e.m_delta_unmarked + (if f then (0:ℚ) else 1)))) ∧
        ((AckSeq e a f t).2).m_delta_marked = 0 ∧
        ((AckSeq e a f t).2).m_delta_unmarked = 0) ∧
    (¬ (0:ℚ) < (e.m_delta_marked + (if f then (1:ℚ) else 0))
        + (e.m_delta_unmarked + (if f then (0:ℚ) else 1)) →
      ((AckSeq e a f t).2).m_alpha = e.m_alpha) ∧
    (0 ≤ ((AckSeq e a f t).2).m_alpha ∧ ((AckSeq e a f t).2).m_alpha ≤ 1) := by
  have hDpos : (0:ℚ) < (e.m_delta_marked + (if f then (1:ℚ) else 0))
      + (e.m_delta_unmarked + (if f then (0:ℚ) else 1)) := by
    cases f <;> simp <;> linarith
  obtain ⟨e2, hE, hA, hG, hM, hU⟩ := ackSeq_sndCases e a f t
  obtain ⟨s1, s2, s3, s4, s5⟩ := markingUpdate_alpha_spec e2 f
    (by rw [hG]; exact hg0) (by rw [hG]; exact hg1)
    (by rw [hA]; exact ha0) (by rw [hA]; exact ha1)
    (by rw [hM]; exact hdm) (by rw [hU]; exact hdu)
  rw [hA, hG, hM, hU] at s1
  rw [hE]
  exact ⟨fun _ => ⟨s1, s2, s3⟩, fun hcon => absurd hDpos hcon, s4, s5⟩

/-- Witness for C7: a marked ack on the fresh estimator (g = 1/16, alpha = 0,
zero deltas) leaves alpha within the unit interval. -/
theorem ackSeq_alphaUpdate_witness :
    0 < initEstimator.m_g ∧ initEstimator.m_g < 1 ∧
      0 ≤ initEstimator.m_alpha ∧ initEstimator.m_alpha ≤ 1 ∧
      0 ≤ initEstimator.m_delta_marked ∧ 0 ≤ initEstimator.m_delta_unmarked ∧
      (0 ≤ ((AckSeq initEstimator 10 true 1).2).m_alpha ∧
        ((AckSeq initEstimator 10 true 1).2).m_alpha ≤ 1) :=
  ⟨by norm_num [initEstimator], by norm_num [initEstimator],
    by norm_num [initEstimator], by norm_num [initEstimator],
    by norm_num [initEstimator], by norm_num [initEstimator],
    (ackSeq_alphaUpdate initEstimator 10 true 1
      (by norm_num [initEstimator]) (by norm_num [initEstimator])
      (by norm_num [initEstimator]) (by norm_num [initEstimator])
      (by norm_num [initEstimator]) (by norm_num [initEstimator])).2.2⟩

/-- Claim C8 (reset idempotence): `Reset` applied twice equals `Reset` applied
once; after `Reset` the estimate equals the configured initial RTT, the
variance is zero, the ledger is empty and the sample count is zero; and `Reset`
leaves the `minRto` and `maxMultiplier` configuration untouched. -/
theorem reset_idempotent (e : RttEstimator) :
    Reset (Reset e) = Reset e ∧
      (Reset e).m_currentEstimatedRtt = e.m_initialEstimatedRtt ∧
      (Reset e).m_variance = 0 ∧
      (Reset e).m_history = [] ∧
      (Reset e).m_nSamples = 0 ∧
      (Reset e).m_minRto = e.m_minRto ∧
      (Reset e).m_maxMultiplier = e.m_maxMultiplier :=
  ⟨rfl, rfl, rfl, rfl, rfl, rfl, rfl⟩

/-- Claim C9 (copy semantics): `Copy` produces an estimator whose ledger is
fresh and empty while every numeric-state and configuration field agrees with
the original's; independence of subsequent mutations is inherent to the pure
value semantics of the embedding. -/
theorem copy_spec (e : RttEstimator) :
    (Copy e).m_history = [] ∧
      (Copy e).m_next = e.m_next ∧
      (Copy e).m_maxMultiplier = e.m_maxMultiplier ∧
      (Copy e).m_initialEstimatedRtt = e.m_initialEstimatedRtt ∧
      (Copy e).m_currentEstimatedRtt = e.m_currentEstimatedRtt ∧
      (Copy e).m_minRto = e.m_minRto ∧
      (Copy e).m_nSamples = e.m_nSamples ∧
      (Copy e).m_multiplier = e.m_multiplier ∧
      (Copy e).m_g = e.m_g ∧
      (Copy e).m_marked = e.m_marked ∧
      (Copy e).m_nonMarked = e.m_nonMarked ∧
      (Copy e).m_alpha = e.m_alpha ∧
      (Copy e).m_delta_marked = e.m_delta_marked ∧
      (Copy e).m_delta_unmarked = e.m_delta_unmarked ∧
      (Copy e).m_fracMarkPkt = e.m_fracMarkPkt ∧
      (Copy e).m_gain = e.m_gain ∧
      (Copy e).m_variance = e.m_variance :=
  ⟨rfl, rfl, rfl, rfl, rfl, rfl, rfl, rfl, rfl, rfl, rfl, rfl, rfl, rfl, rfl, rfl, rfl⟩

/-- Claim C10 (Init frame/effect): `Init e s` unconditionally overwrites
`m_next` with `s` — for every `s`, including values below the current `m_next`,
so there is no never-rewind protection — and changes no other field of the
estimator. -/
theorem init_overwritesNext (e : RttEstimator) (s : Nat) :
    (Init e s).m_next = s ∧
      (Init e s).m_history = e.m_history ∧
      (Init e s).m_maxMultiplier = e.m_maxMultiplier ∧
      (Init e s).m_initialEstimatedRtt = e.m_initialEstimatedRtt ∧
      (Init e s).m_currentEstimatedRtt = e.m_currentEstimatedRtt ∧
      (Init e s).m_minRto = e.m_minRto ∧
      (Init e s).m_nSamples = e.m_nSamples ∧
      (Init e s).m_multiplier = e.m_multiplier ∧
      (Init e s).m_g = e.m_g ∧
      (Init e s).m_marked = e.m_marked ∧
      (Init e s).m_nonMarked = e.m_nonMarked ∧
      (Init e s).m_alpha = e.m_alpha ∧
      (Init e s).m_delta_marked = e.m_delta_marked ∧
      (Init e s).m_delta_unmarked = e.m_delta_unmarked ∧
      (Init e s).m_fracMarkPkt = e.m_fracMarkPkt ∧
      (Init e s).m_gain = e.m_gain ∧
      (Init e s).m_variance = e.m_variance :=
  ⟨rfl, rfl, rfl, rfl, rfl, rfl, rfl, rfl, rfl, rfl, rfl, rfl, rfl, rfl, rfl, rfl, rfl⟩

end Ns3Rtt
